import Mathlib

/-!
Verification of `aws_helpers/athena_helper.py`.

The module has three functions:
- `start_athena_query` builds a request and performs one call to the remote
  client's `start_query_execution`;
- `wait_for_athena_query` polls `get_query_execution` in a loop bounded by an
  attempt budget, returning a result filename on SUCCEEDED and `False`
  otherwise;
- `athena_to_s3` composes the two.

The remote client is modelled as oracles: submission as a function from the
constructed request to an `Except` result (a Python exception or a response
dictionary), and status polling as a function from the query execution id and
the index of the call to a response.  The poll loop is embedded as structural
recursion on the attempt budget, instrumented with the number of status
queries and sleeps performed, so that the claims about call counts are
statable.
-/

namespace AthenaHelper

/-- A single segment split: `splitOnChar c l` splits the character list `l`
at every occurrence of `c` (the separators are dropped, empty segments kept),
mirroring how a string is divided into the regions a regex character class
excluding `c` can match within. -/
def splitOnChar (c : Char) : List Char → List (List Char)
  | [] => [[]]
  | x :: xs =>
    let r := splitOnChar c xs
    if x = c then [] :: r else (x :: r.headD []) :: r.tail

/-- The portion of a line after its last `'/'` (the whole line when it has
no `'/'`).  This is what the greedy group of the Python regex pattern
dot-star-slash-group-dot-star captures on a line containing a `'/'`: the
leading greedy dot-star consumes up to the last `'/'` of the line, and the
group captures the rest of the line. -/
def afterLastSlash (l : List Char) : List Char :=
  (l.reverse.takeWhile (fun a => a ≠ '/')).reverse

/-- Embedding of the Python call `re.findall` with pattern
dot-star-slash-group-dot-star (source line 47).  In Python `re`, `.` does not
match a newline, so every match lies within a single line; on each line that
contains a `'/'` the engine produces exactly one match whose group is the part
of the line after the line's last `'/'`, and a line without `'/'` yields no
match.  `re.findall` returns the captured groups in order. -/
def findall_slash_groups (s : List Char) : List (List Char) :=
  (splitOnChar '\n' s).filterMap fun line =>
    if '/' ∈ line then some (afterLastSlash line) else none

/-- Embedding of `re.findall(pattern, s3_path)[0]` on source line 47:
indexing `[0]` of the findall result yields its first element, and raises
`IndexError` (modelled as `none`) when the list of matches is empty. -/
def extract_result_filename (s3_path : String) : Option String :=
  match findall_slash_groups s3_path.data with
  | [] => none
  | f :: _ => some (String.mk f)

/-- A response of `get_query_execution`.  `status` is `some state` when the
response dictionary has both the `QueryExecution` key and its `Status` sub-key
(source line 38), carrying the `State` string; it is `none` when either key is
absent.  `outputLocation` is the `ResultConfiguration.OutputLocation` string
read on the SUCCEEDED branch (source line 46). -/
structure GetQueryExecutionResponse where
  status : Option String
  outputLocation : String
deriving DecidableEq

/-- What `wait_for_athena_query` produces: a filename string (SUCCEEDED
branch), the sentinel `False` (FAILED branch and budget exhaustion), or a
raised exception (the `IndexError` from indexing an empty findall result). -/
inductive PollResult where
  | filename (name : String)
  | noResult
  | error
deriving DecidableEq

/-- The observable trace of one run of the poll loop: its return value, how
many `get_query_execution` calls it made, and how many one-second sleeps it
performed.  Each loop iteration decrements the attempt budget exactly once
and immediately performs exactly one status query (source lines 35-36), so
`queries` is also the number of times the budget was decremented. -/
structure PollTrace where
  result : PollResult
  queries : Nat
  sleeps : Nat
deriving DecidableEq

/-- The body of the `while` loop of `wait_for_athena_query` (source lines
34-52), as structural recursion on the remaining attempt budget.  `responses k`
is the response the remote service gives to the k-th `get_query_execution`
call of this run; `state` is the Python local variable `state`; `fuel` is the
value of the Python local `max_execution` (a nonpositive initial value is
mapped to fuel 0 by the wrapper, since the loop then never runs).  Each
iteration: decrement the budget and query once; on a missing
`QueryExecution`/`Status` key keep the old state, sleep and continue; on
FAILED return the sentinel; on SUCCEEDED return the extracted filename (or
raise); on any other state record it, sleep and continue. -/
def pollAux (responses : Nat → GetQueryExecutionResponse) :
    Nat → String → Nat → PollTrace
  | _, _, 0 => ⟨PollResult.noResult, 0, 0⟩
  | k, state, fuel + 1 =>
    if state = "RUNNING" ∨ state = "QUEUED" then
      let response := responses k
      match response.status with
      | some newState =>
        if newState = "FAILED" then ⟨PollResult.noResult, 1, 0⟩
        else if newState = "SUCCEEDED" then
          match extract_result_filename response.outputLocation with
          | none => ⟨PollResult.error, 1, 0⟩
          | some f => ⟨PollResult.filename f, 1, 0⟩
        else
          let t := pollAux responses (k + 1) newState fuel
          ⟨t.result, t.queries + 1, t.sleeps + 1⟩
      | none =>
        let t := pollAux responses (k + 1) state fuel
        ⟨t.result, t.queries + 1, t.sleeps + 1⟩
    else ⟨PollResult.noResult, 0, 0⟩

/-- Embedding of `wait_for_athena_query` (source lines 23-52).
`getQueryExecution id k` is the response to the k-th status call for
execution id `id`; every call of the loop passes the same
`query_execution_id` (source line 36).  The local `state` starts as
`"RUNNING"` (source line 32).  `max_execution` is a Python int; the `while`
guard `max_execution > 0` together with the decrement-by-one per iteration
means the loop body runs exactly `max(max_execution, 0) = toNat` times unless
a terminal state ends it earlier, so `Int.toNat` is the faithful fuel. -/
def wait_for_athena_query (getQueryExecution : String → Nat → GetQueryExecutionResponse)
    (query_execution_id : String) (max_execution : Int) : PollTrace :=
  pollAux (getQueryExecution query_execution_id) 0 "RUNNING" max_execution.toNat

/-- The default value of the `max_execution` parameter in the source
(lines 23 and 54). -/
def default_max_execution : Int := 100

/-- The request `start_athena_query` constructs (source lines 16-20): the
query string, the query execution context database, and the result
configuration output location built by the f-string as
`s3://<output_bucket>/<output_path>`. -/
structure SubmitRequest where
  queryString : String
  database : String
  outputLocation : String
deriving DecidableEq

/-- The response of a successful `start_query_execution` call, carrying the
`QueryExecutionId` read by `athena_to_s3` (source line 67). -/
structure SubmitResponse where
  queryExecutionId : String
deriving DecidableEq

/-- The output location f-string of source line 19. -/
def mkOutputLocation (output_bucket output_path : String) : String :=
  "s3://" ++ output_bucket ++ "/" ++ output_path

/-- The request constructed by `start_athena_query` from its arguments. -/
def mkSubmitRequest (query database output_bucket output_path : String) :
    SubmitRequest :=
  ⟨query, database, mkOutputLocation output_bucket output_path⟩

/-- Embedding of `start_athena_query` (source lines 5-21): build the request
and perform a single call to the client's `start_query_execution`; the
response (or the raised exception, modelled by `Except.error`) is returned
unchanged — there is no handler and no retry in the source. -/
def start_athena_query (start_query_execution : SubmitRequest → Except String SubmitResponse)
    (query database output_bucket output_path : String) :
    Except String SubmitResponse :=
  start_query_execution (mkSubmitRequest query database output_bucket output_path)

instance : DecidableEq (Except String PollResult) := fun a b =>
  match a, b with
  | Except.error x, Except.error y =>
    if h : x = y then isTrue (by rw [h]) else isFalse (by intro hc; cases hc; exact h rfl)
  | Except.error _, Except.ok _ => isFalse (by intro hc; cases hc)
  | Except.ok _, Except.error _ => isFalse (by intro hc; cases hc)
  | Except.ok x, Except.ok y =>
    if h : x = y then isTrue (by rw [h]) else isFalse (by intro hc; cases hc; exact h rfl)

/-- The observable trace of one `athena_to_s3` call: the returned value (or
propagated exception), the number of `start_query_execution` calls, the
number of `get_query_execution` calls, and the number of sleeps. -/
structure OrchestratorTrace where
  result : Except String PollResult
  submitCalls : Nat
  statusQueries : Nat
  sleeps : Nat
deriving DecidableEq

/-- Embedding of `athena_to_s3` (source lines 54-68): call
`start_athena_query` once (the single textual call on line 66, outside any
loop or handler, is the one and only submission); if it raises, the exception
propagates before any polling happens; otherwise read `QueryExecutionId` from
the response and return the result of `wait_for_athena_query` on it. -/
def athena_to_s3 (start_query_execution : SubmitRequest → Except String SubmitResponse)
    (getQueryExecution : String → Nat → GetQueryExecutionResponse)
    (query database output_bucket output_path : String)
    (max_execution : Int) : OrchestratorTrace :=
  match start_athena_query start_query_execution query database output_bucket output_path with
  | Except.error e => ⟨Except.error e, 1, 0, 0⟩
  | Except.ok execution =>
    let t := wait_for_athena_query getQueryExecution execution.queryExecutionId max_execution
    ⟨Except.ok t.result, 1, t.queries, t.sleeps⟩

/-- The spec's reading of filename extraction: "the filename is derived by
taking the final path segment", i.e. the substring of the output location
after its last `'/'`. -/
def spec_finalPathSegment (s : String) : String :=
  String.mk (afterLastSlash s.data)

/-- A status oracle whose responses are RUNNING for the first two calls and
then SUCCEEDED with output location `s3://bucket/path/result.csv`. -/
def getRunningTwiceThenSucceeded : String → Nat → GetQueryExecutionResponse :=
  fun _ k =>
    if k < 2 then ⟨some "RUNNING", ""⟩
    else ⟨some "SUCCEEDED", "s3://bucket/path/result.csv"⟩

/-- A status oracle that always reports FAILED. -/
def getAlwaysFailed : String → Nat → GetQueryExecutionResponse :=
  fun _ _ => ⟨some "FAILED", ""⟩

/-- A status oracle that always reports RUNNING. -/
def getAlwaysRunning : String → Nat → GetQueryExecutionResponse :=
  fun _ _ => ⟨some "RUNNING", ""⟩

/-- A status-response sequence in which every response lacks the
`QueryExecution`/`Status` keys. -/
def noStatusResponses : Nat → GetQueryExecutionResponse :=
  fun _ => ⟨none, ""⟩

/-- A submission oracle that accepts any request and returns execution id
`abc123`. -/
def startAbc123 : SubmitRequest → Except String SubmitResponse :=
  fun _ => Except.ok ⟨"abc123"⟩

/-- A submission oracle that raises on any request. -/
def startBoom : SubmitRequest → Except String SubmitResponse :=
  fun _ => Except.error "boom"

/-- A status oracle that reports SUCCEEDED with location `s3://out/x.csv`
for execution id `abc123`, and FAILED for any other id: it distinguishes
whether the poller was invoked with the id the submission returned. -/
def getForAbc123 : String → Nat → GetQueryExecutionResponse :=
  fun id _ =>
    if id = "abc123" then ⟨some "SUCCEEDED", "s3://out/x.csv"⟩
    else ⟨some "FAILED", ""⟩

/-! ### Helper lemmas about the embedded definitions -/

lemma splitOnChar_ne_nil (c : Char) (l : List Char) : splitOnChar c l ≠ [] := by
  cases l with
  | nil => simp [splitOnChar]
  | cons x xs =>
    simp only [splitOnChar]
    split <;> simp

lemma splitOnChar_of_not_mem {c : Char} {l : List Char} (h : c ∉ l) :
    splitOnChar c l = [l] := by
  induction l with
  | nil => rfl
  | cons x xs ih =>
    have hx : ¬ x = c := by
      intro hc
      exact h (hc ▸ List.mem_cons_self x xs)
    have hxs : c ∉ xs := fun hm => h (List.mem_cons_of_mem _ hm)
    simp [splitOnChar, hx, ih hxs]

lemma mem_of_mem_splitOnChar {c : Char} {l x : List Char} {a : Char}
    (hx : x ∈ splitOnChar c l) (ha : a ∈ x) : a ∈ l := by
  induction l generalizing x with
  | nil =>
    simp only [splitOnChar, List.mem_singleton] at hx
    subst hx
    cases ha
  | cons y ys ih =>
    cases hr : splitOnChar c ys with
    | nil => exact absurd hr (splitOnChar_ne_nil c ys)
    | cons z zs =>
      by_cases hy : y = c
      · simp only [splitOnChar, hr, if_pos hy, List.mem_cons] at hx
        rcases hx with rfl | hx
        · cases ha
        · exact List.mem_cons_of_mem _
            (ih (by rw [hr]; exact List.mem_cons.mpr hx) ha)
      · simp only [splitOnChar, hr, if_neg hy, List.headD_cons, List.tail_cons,
          List.mem_cons] at hx
        rcases hx with rfl | hx
        · rcases List.mem_cons.mp ha with rfl | haz
          · exact List.mem_cons_self a ys
          · exact List.mem_cons_of_mem _
              (ih (by rw [hr]; exact List.mem_cons_self z zs) haz)
        · exact List.mem_cons_of_mem _
            (ih (by rw [hr]; exact List.mem_cons_of_mem z hx) ha)

lemma exists_mem_splitOnChar (c : Char) {a : Char} {l : List Char}
    (ha : a ∈ l) (hac : a ≠ c) : ∃ x ∈ splitOnChar c l, a ∈ x := by
  induction l with
  | nil => cases ha
  | cons y ys ih =>
    cases hr : splitOnChar c ys with
    | nil => exact absurd hr (splitOnChar_ne_nil c ys)
    | cons z zs =>
      by_cases hy : y = c
      · rcases List.mem_cons.mp ha with rfl | hmem
        · exact absurd hy hac
        · obtain ⟨x, hx, hax⟩ := ih hmem
          refine ⟨x, ?_, hax⟩
          simp only [splitOnChar, if_pos hy, List.mem_cons]
          exact Or.inr hx
      · rcases List.mem_cons.mp ha with rfl | hmem
        · refine ⟨a :: z, ?_, List.mem_cons_self a z⟩
          simp [splitOnChar, hr, hy]
        · obtain ⟨x, hx, hax⟩ := ih hmem
          rw [hr] at hx
          rcases List.mem_cons.mp hx with rfl | hxz
          · refine ⟨y :: x, ?_, List.mem_cons_of_mem _ hax⟩
            simp [splitOnChar, hr, hy]
          · refine ⟨x, ?_, hax⟩
            simp [splitOnChar, hr, hy, hxz]

lemma afterLastSlash_append_slash (l : List Char) :
    afterLastSlash (l ++ ['/']) = [] := by
  simp [afterLastSlash, List.takeWhile]

lemma extract_of_no_slash {s : String} (h : '/' ∉ s.data) :
    extract_result_filename s = none := by
  have hf : findall_slash_groups s.data = [] := by
    rw [findall_slash_groups, List.filterMap_eq_nil_iff]
    intro line hline
    rw [if_neg]
    intro hsl
    exact h (mem_of_mem_splitOnChar hline hsl)
  rw [extract_result_filename, hf]

lemma extract_of_mem_slash {s : String} (h : '/' ∈ s.data) :
    ∃ f, extract_result_filename s = some f := by
  obtain ⟨line, hline, hslash⟩ := exists_mem_splitOnChar '\n' h (by decide)
  have hmem : afterLastSlash line ∈ findall_slash_groups s.data := by
    rw [findall_slash_groups]
    exact List.mem_filterMap.mpr ⟨line, hline, by rw [if_pos hslash]⟩
  rw [extract_result_filename]
  cases hf : findall_slash_groups s.data with
  | nil => rw [hf] at hmem; cases hmem
  | cons g gs => exact ⟨String.mk g, rfl⟩

lemma extract_of_no_newline {s : String} (hn : '\n' ∉ s.data) (hs : '/' ∈ s.data) :
    extract_result_filename s = some (spec_finalPathSegment s) := by
  rw [extract_result_filename, findall_slash_groups, splitOnChar_of_not_mem hn,
    List.filterMap_cons, if_pos hs]
  rfl

lemma pollAux_nonterminal (responses : Nat → GetQueryExecutionResponse)
    (h : ∀ j, ∃ st, (responses j).status = some st ∧ (st = "QUEUED" ∨ st = "RUNNING")) :
    ∀ fuel k state, (state = "RUNNING" ∨ state = "QUEUED") →
      pollAux responses k state fuel = ⟨PollResult.noResult, fuel, fuel⟩ := by
  intro fuel
  induction fuel with
  | zero => intro k state _; rfl
  | succ n ih =>
    intro k state hstate
    obtain ⟨st, hst, hq⟩ := h k
    have h1 : ¬ st = "FAILED" := by rcases hq with rfl | rfl <;> decide
    have h2 : ¬ st = "SUCCEEDED" := by rcases hq with rfl | rfl <;> decide
    have hrec := ih (k + 1) st hq.symm
    simp [pollAux, if_pos hstate, hst, h1, h2, hrec]

lemma wait_failed_first (get : String → Nat → GetQueryExecutionResponse)
    (id : String) (n : Int) (hn : 0 < n)
    (hf : (get id 0).status = some "FAILED") :
    wait_for_athena_query get id n = ⟨PollResult.noResult, 1, 0⟩ := by
  obtain ⟨m, hm⟩ : ∃ m, n.toNat = m + 1 := ⟨n.toNat - 1, by omega⟩
  rw [wait_for_athena_query, hm]
  simp [pollAux, hf]

lemma wait_nonterminal (get : String → Nat → GetQueryExecutionResponse)
    (id : String) (n : Int)
    (h : ∀ k, ∃ st, (get id k).status = some st ∧ (st = "QUEUED" ∨ st = "RUNNING")) :
    wait_for_athena_query get id n = ⟨PollResult.noResult, n.toNat, n.toNat⟩ :=
  pollAux_nonterminal (get id) h n.toNat 0 "RUNNING" (Or.inl rfl)

/-! ### The claims -/

/-- C1 (as stated, refuted): it is NOT the case that for every output
location string containing at least one `'/'` the extracted filename is the
substring after the last `'/'`.  On the location built of the two lines
`a/b` and `c/d`, the Python regex (in which `.` does not match a newline)
captures `b`, the suffix of the first line, while the substring after the
last `'/'` of the whole string is `d`. -/
theorem C1_counterexample :
    ¬ (∀ s : String, '/' ∈ s.data →
        extract_result_filename s = some (spec_finalPathSegment s)) := by
  intro h
  exact absurd (h "a/b\nc/d" (by decide)) (by decide)

/-- C1 (amended): for every output location string containing at least one
`'/'` and no newline character, the filename extracted by the poller on
SUCCEEDED is the substring after the last `'/'`. -/
theorem C1_extracted_is_last_segment (s : String)
    (hs : '/' ∈ s.data) (hn : '\n' ∉ s.data) :
    extract_result_filename s = some (spec_finalPathSegment s) :=
  extract_of_no_newline hn hs

/-- Witness for C1: on `s3://my-bucket/folder/sub/query_results.csv` the
extracted filename is `query_results.csv`. -/
theorem C1_witness :
    extract_result_filename "s3://my-bucket/folder/sub/query_results.csv" =
      some "query_results.csv" := by
  rw [C1_extracted_is_last_segment "s3://my-bucket/folder/sub/query_results.csv"
    (by decide) (by decide)]
  decide

/-- C2: with the default budget 100 and status responses RUNNING, RUNNING,
then SUCCEEDED with location `s3://bucket/path/result.csv`, the poller
returns `result.csv` after exactly 3 status queries (and 2 sleeps). -/
theorem C2_three_checks_then_filename :
    wait_for_athena_query getRunningTwiceThenSucceeded "qid" default_max_execution =
      ⟨PollResult.filename "result.csv", 3, 2⟩ := by decide

/-- C3: for every positive attempt budget, if the first status response is
FAILED, the poller returns the sentinel after exactly 1 status query and 0
sleeps (one loop iteration, hence the budget is decremented exactly once). -/
theorem C3_failed_returns_immediately (get : String → Nat → GetQueryExecutionResponse)
    (id : String) (n : Int) (hn : 0 < n)
    (hf : (get id 0).status = some "FAILED") :
    wait_for_athena_query get id n = ⟨PollResult.noResult, 1, 0⟩ :=
  wait_failed_first get id n hn hf

/-- Witness for C3: budget 5 against an always-FAILED oracle. -/
theorem C3_witness :
    wait_for_athena_query getAlwaysFailed "q" 5 = ⟨PollResult.noResult, 1, 0⟩ :=
  C3_failed_returns_immediately getAlwaysFailed "q" 5 (by decide) rfl

/-- C4: for every positive attempt budget N, if every status response carries
a state in (QUEUED, RUNNING) (never terminal), the poller performs exactly N
status queries (and N sleeps), then returns the sentinel. -/
theorem C4_nonterminal_exhausts_budget (get : String → Nat → GetQueryExecutionResponse)
    (id : String) (N : Nat) (hN : 0 < N)
    (h : ∀ k, ∃ st, (get id k).status = some st ∧ (st = "QUEUED" ∨ st = "RUNNING")) :
    wait_for_athena_query get id (N : Int) = ⟨PollResult.noResult, N, N⟩ := by
  have hw := wait_nonterminal get id (N : Int) h
  rwa [Int.toNat_natCast] at hw

/-- Witness for C4: budget 3 against an always-RUNNING oracle gives exactly
3 status queries then the sentinel. -/
theorem C4_witness :
    wait_for_athena_query getAlwaysRunning "q" 3 = ⟨PollResult.noResult, 3, 3⟩ :=
  C4_nonterminal_exhausts_budget getAlwaysRunning "q" 3 (by decide)
    (fun _ => ⟨"RUNNING", rfl, Or.inr rfl⟩)

/-- C5: the orchestrator is the composition of submitter then poller: when
the submission returns a response, `athena_to_s3` performs that one
submission and returns, unchanged, the result of `wait_for_athena_query`
applied to the `QueryExecutionId` of the submission response and the given
budget. -/
theorem C5_orchestrator_composes (start : SubmitRequest → Except String SubmitResponse)
    (get : String → Nat → GetQueryExecutionResponse)
    (q db b p : String) (n : Int) (ex : SubmitResponse)
    (hok : start_athena_query start q db b p = Except.ok ex) :
    athena_to_s3 start get q db b p n =
      ⟨Except.ok (wait_for_athena_query get ex.queryExecutionId n).result, 1,
       (wait_for_athena_query get ex.queryExecutionId n).queries,
       (wait_for_athena_query get ex.queryExecutionId n).sleeps⟩ := by
  rw [athena_to_s3, hok]

/-- Witness for C5: a submission returning executionId `abc123` followed by a
SUCCEEDED status with location `s3://out/x.csv` (the status oracle answers
SUCCEEDED only for id `abc123`) yields final return value `x.csv`. -/
theorem C5_witness :
    athena_to_s3 startAbc123 getForAbc123 "SELECT 1" "db" "out" "res" default_max_execution =
      ⟨Except.ok (PollResult.filename "x.csv"), 1, 1, 0⟩ := by
  rw [C5_orchestrator_composes startAbc123 getForAbc123 "SELECT 1" "db" "out" "res"
    default_max_execution ⟨"abc123"⟩ rfl]
  decide

/-- C6: the poller's return value on budget exhaustion without a terminal
state is identical to its return value on a first FAILED status: both are
the sentinel `PollResult.noResult` (the embedding of Python `False`), so the
two outcomes are indistinguishable to the caller. -/
theorem C6_timeout_indistinguishable_from_failed
    (get1 get2 : String → Nat → GetQueryExecutionResponse)
    (id1 id2 : String) (n1 n2 : Int) (h1 : 0 < n1)
    (hf : (get1 id1 0).status = some "FAILED")
    (hnt : ∀ k, ∃ st, (get2 id2 k).status = some st ∧ (st = "QUEUED" ∨ st = "RUNNING")) :
    (wait_for_athena_query get1 id1 n1).result = (wait_for_athena_query get2 id2 n2).result ∧
    (wait_for_athena_query get1 id1 n1).result = PollResult.noResult := by
  rw [wait_failed_first get1 id1 n1 h1 hf, wait_nonterminal get2 id2 n2 hnt]
  exact ⟨rfl, rfl⟩

/-- Witness for C6: a FAILED run with budget 4 and a never-terminal run with
budget 2 return the same sentinel. -/
theorem C6_witness :
    (wait_for_athena_query getAlwaysFailed "a" 4).result =
      (wait_for_athena_query getAlwaysRunning "b" 2).result ∧
    (wait_for_athena_query getAlwaysFailed "a" 4).result = PollResult.noResult :=
  C6_timeout_indistinguishable_from_failed getAlwaysFailed getAlwaysRunning
    "a" "b" 4 2 (by decide) rfl (fun _ => ⟨"RUNNING", rfl, Or.inr rfl⟩)

/-- C7: an error raised by the remote submission call propagates unchanged to
the caller of `start_athena_query` and of `athena_to_s3`; no status query
runs, the error is never converted to the sentinel, and (unconditionally) the
orchestrator performs exactly one submission call, never a retry. -/
theorem C7_submission_error_propagates (start : SubmitRequest → Except String SubmitResponse)
    (get : String → Nat → GetQueryExecutionResponse)
    (q db b p : String) (n : Int) (e : String)
    (he : start (mkSubmitRequest q db b p) = Except.error e) :
    start_athena_query start q db b p = Except.error e ∧
    athena_to_s3 start get q db b p n = ⟨Except.error e, 1, 0, 0⟩ ∧
    (∀ start2 get2, (athena_to_s3 start2 get2 q db b p n).submitCalls = 1) := by
  refine ⟨he, ?_, ?_⟩
  · rw [athena_to_s3, start_athena_query, he]
  · intro start2 get2
    rw [athena_to_s3]
    split <;> rfl

/-- Witness for C7: a submission oracle that raises `boom` makes the
orchestrator propagate `boom` after one submission and zero status calls. -/
theorem C7_witness :
    athena_to_s3 startBoom getAlwaysRunning "q" "db" "b" "p" 7 =
      ⟨Except.error "boom", 1, 0, 0⟩ :=
  (C7_submission_error_propagates startBoom getAlwaysRunning
    "q" "db" "b" "p" 7 "boom" rfl).2.1

/-- C8: when a status response lacks the `QueryExecution` key or its `Status`
sub-key and the budget is still positive, the loop body neither raises nor
terminates on that response: it keeps the last-known state, consumes one unit
of budget, performs one query and one sleep, and continues polling. -/
theorem C8_missing_keys_continue (responses : Nat → GetQueryExecutionResponse)
    (k : Nat) (state : String) (fuel : Nat)
    (hstate : state = "RUNNING" ∨ state = "QUEUED")
    (hnone : (responses k).status = none) :
    pollAux responses k state (fuel + 1) =
      ⟨(pollAux responses (k + 1) state fuel).result,
       (pollAux responses (k + 1) state fuel).queries + 1,
       (pollAux responses (k + 1) state fuel).sleeps + 1⟩ := by
  simp [pollAux, if_pos hstate, hnone]

/-- Witness for C8: a response sequence with no status keys at all. -/
theorem C8_witness :
    pollAux noStatusResponses 0 "RUNNING" 2 =
      ⟨(pollAux noStatusResponses 1 "RUNNING" 1).result,
       (pollAux noStatusResponses 1 "RUNNING" 1).queries + 1,
       (pollAux noStatusResponses 1 "RUNNING" 1).sleeps + 1⟩ :=
  C8_missing_keys_continue noStatusResponses 0 "RUNNING" 1 (Or.inl rfl) rfl

/-- C9 (as stated, refuted): the conjunction "every location ending in `'/'`
extracts the empty string, every location with no `'/'` raises, every
location with a `'/'` is safe" fails on its first conjunct: the location
built of the lines `a/b` and `c/` ends in `'/'`, yet the extraction captures
`b` from the first line, not the empty string. -/
theorem C9_counterexample :
    ¬ ((∀ s : String, (∃ l, s.data = l ++ ['/']) → extract_result_filename s = some "") ∧
       (∀ s : String, '/' ∉ s.data → extract_result_filename s = none) ∧
       (∀ s : String, '/' ∈ s.data → ∃ f, extract_result_filename s = some f)) := by
  rintro ⟨h1, -, -⟩
  exact absurd (h1 "a/b\nc/" ⟨"a/b\nc".data, by decide⟩) (by decide)

/-- C9 (amended): the extraction is partial: a location ending in `'/'` and
containing no newline extracts the empty string; a location with no `'/'` at
all makes the extraction raise (`none`, the IndexError of indexing an empty
match list); and a location containing at least one `'/'` never raises. -/
theorem C9_extraction_unsafe_domain :
    (∀ s : String, (∃ l, s.data = l ++ ['/']) → '\n' ∉ s.data →
        extract_result_filename s = some "") ∧
    (∀ s : String, '/' ∉ s.data → extract_result_filename s = none) ∧
    (∀ s : String, '/' ∈ s.data → ∃ f, extract_result_filename s = some f) := by
  refine ⟨?_, fun s h => extract_of_no_slash h, fun s h => extract_of_mem_slash h⟩
  rintro s ⟨l, hl⟩ hn
  have hs : '/' ∈ s.data := by
    rw [hl]
    exact List.mem_append_right l (List.mem_singleton.mpr rfl)
  rw [extract_of_no_newline hn hs, spec_finalPathSegment, hl,
    afterLastSlash_append_slash]

/-- Witness for C9: `abc/` extracts the empty string, `abc` raises, and
`a/b` is safe. -/
theorem C9_witness :
    extract_result_filename "abc/" = some "" ∧
    extract_result_filename "abc" = none ∧
    (∃ f, extract_result_filename "a/b" = some f) :=
  ⟨C9_extraction_unsafe_domain.1 "abc/" ⟨"abc".data, by decide⟩ (by decide),
   C9_extraction_unsafe_domain.2.1 "abc" (by decide),
   C9_extraction_unsafe_domain.2.2 "a/b" (by decide)⟩

/-- C10: for every attempt budget that is zero or negative, the `while`
guard fails at once: the poller performs zero status queries and zero sleeps
and returns the sentinel immediately. -/
theorem C10_nonpositive_budget_immediate (get : String → Nat → GetQueryExecutionResponse)
    (id : String) (n : Int) (hn : n ≤ 0) :
    wait_for_athena_query get id n = ⟨PollResult.noResult, 0, 0⟩ := by
  rw [wait_for_athena_query, Int.toNat_of_nonpos hn]
  rfl

/-- Witness for C10: budget -3 does nothing. -/
theorem C10_witness :
    wait_for_athena_query getAlwaysRunning "q" (-3) = ⟨PollResult.noResult, 0, 0⟩ :=
  C10_nonpositive_budget_immediate getAlwaysRunning "q" (-3) (by decide)

end AthenaHelper
